import Mathlib

/-!
Shallow embedding of `app.py` (Streamlit forecast app).

Conventions of the embedding:
* JSON numbers (Python floats) are modelled as rationals `ℚ`; the exact
  decimal formatting of a number in the UI is abstracted by `toString`,
  since no verified property depends on digit-level float printing.
* An outbound HTTP call is modelled by its outcome `HttpOutcome α`:
  either an exception was raised before a response existed (timeout, DNS
  failure, connection error), or a response arrived with a status code and
  a body whose JSON parse either succeeded (`some a`) or raised
  (`none`, also covering a body of the wrong shape).
* `requests` semantics: `Response.ok` is `status < 400`;
  `Response.raise_for_status()` raises exactly when `400 ≤ status`.
* Python dict access: `d.get(k)` / `d.get(k, default)` becomes `Option`
  with `getD`; a bare `d[k]` on an optional field would raise, and where
  the script can actually crash that way the embedding returns `none`
  (see `currentDesc`).
* Streamlit specifics: `st.stop()` ends the script run, modelled by the
  constructors of `AppResult`; `st.experimental_rerun()` is the
  `ROutcome.rerun` constructor carrying the freshly set query params.
-/

set_option linter.unusedVariables false

namespace ForecastApp

/-- Outcome of one `requests.get` call: an exception before any response,
or a response with an HTTP status and a parse-outcome for its JSON body
(`none` = `r.json()` raises / wrong shape). -/
inductive HttpOutcome (α : Type) where
  | exn : HttpOutcome α
  | response (status : Nat) (body : Option α) : HttpOutcome α
deriving DecidableEq, Repr

/-- Body returned by `https://ipapi.co/json/`. Key names vary by provider,
so the script probes `latitude`/`longitude` and then `lat`/`lon`; it also
reads `city`, `region`, `country_name` for a display name. `otherKeys`
records whether the dict has further keys, so that Python truthiness
(`if ip_data:` = dict nonempty) is representable. -/
structure IpData where
  latitude : Option ℚ
  longitude : Option ℚ
  lat : Option ℚ
  lon : Option ℚ
  city : Option String
  region : Option String
  country_name : Option String
  otherKeys : Bool
deriving DecidableEq, Repr

/-- Python truthiness of the `ip_data` dict: nonempty. -/
def IpData.truthy (d : IpData) : Bool :=
  d.latitude.isSome || d.longitude.isSome || d.lat.isSome || d.lon.isSome ||
  d.city.isSome || d.region.isSome || d.country_name.isSome || d.otherKeys

/-- One match from the OpenWeather geocoding APIs (direct and reverse).
`lat`/`lon` are accessed with mandatory `ge[...]` indexing by the script,
so they are required fields; `name`/`country` go through `.get`. -/
structure GeoMatch where
  name : Option String
  country : Option String
  lat : ℚ
  lon : ℚ
deriving DecidableEq, Repr

/-- `current` object of the One Call response. Every field the renderer
reads goes through `.get`, hence `Option`. `weather` is the list of
condition dicts, each reduced to its optional `description` string. -/
structure Current where
  dt : Option Int
  temp : Option ℚ
  feels_like : Option ℚ
  humidity : Option ℚ
  wind_speed : Option ℚ
  pressure : Option ℚ
  weather : Option (List (Option String))
deriving DecidableEq, Repr

/-- One entry of the `hourly` array; `h["dt"]` and `h["temp"]` are
mandatory indexing in the script. -/
structure HourEntry where
  dt : Int
  temp : ℚ
deriving DecidableEq, Repr

/-- One entry of the `daily` array; `d["dt"]`, `d["temp"]["min"]`,
`d["temp"]["max"]` are mandatory indexing, `weather` and `pop` use
`.get`. -/
structure DayEntry where
  dt : Int
  temp_min : ℚ
  temp_max : ℚ
  weather : Option (List (Option String))
  pop : Option ℚ
deriving DecidableEq, Repr

/-- Parsed One Call payload: `current`, `hourly`, `daily` all read via
`.get` with defaults `\x7b\x7d` / `[]`. -/
structure Weather where
  current : Option Current
  hourly : List HourEntry
  daily : List DayEntry
deriving DecidableEq, Repr

/-- `ip_geolocation()` (app.py:32-41): inside `try`, if `r.ok`
(status < 400) return `r.json()`; a parse failure raises and is caught,
any exception is caught; every failure path returns `None`. -/
def ip_geolocation (call : HttpOutcome IpData) : Option IpData :=
  match call with
  | .exn => none
  | .response status body => if status < 400 then body else none

/-- `geocode_city` (app.py:43-56): `r.raise_for_status()` raises for
status ≥ 400 (caught → `None`), a JSON parse failure is caught → `None`,
then `if data: return data[0]` — the head of the match list — else fall
through to `return None`. -/
def geocode_city (call : HttpOutcome (List GeoMatch)) : Option GeoMatch :=
  match call with
  | .exn => none
  | .response status body =>
    if 400 ≤ status then none
    else
      match body with
      | none => none
      | some data => data.head?

/-- `fetch_weather` (app.py:58-74): one GET inside `try`;
`raise_for_status()` raises for status ≥ 400 (caught → `None`), a JSON
parse failure is caught → `None`, otherwise the parsed payload is
returned. -/
def fetch_weather (call : HttpOutcome Weather) : Option Weather :=
  match call with
  | .exn => none
  | .response status body =>
    if 400 ≤ status then none
    else
      match body with
      | none => none
      | some w => some w

/-- The `lat` / `lon` entries of `st.experimental_get_query_params()`.
Outer `Option`: is the key present; inner `Option`: does
`float(qp[k][0])` succeed on the stored string (`some q` = it parses to
`q`, `none` = `float` raises). -/
structure QueryParams where
  lat : Option (Option ℚ)
  lon : Option (Option ℚ)
  source : Option String
  city : Option String
deriving DecidableEq, Repr

/-- `coords_from_query` (app.py:76-86): both keys present and both
floats parse → the pair; a `float` failure is caught → `None`; a missing
key → `None`. -/
def coords_from_query (qp : QueryParams) : Option (ℚ × ℚ) :=
  match qp.lat, qp.lon with
  | some pl, some pn =>
    match pl, pn with
    | some a, some b => some (a, b)
    | _, _ => none
  | _, _ => none

/-- The sidebar radio `loc_method` (app.py:134): exactly the three
options, Browser GPS first (the default selection). -/
inductive LocMethod where
  | browserGPS
  | ipBased
  | searchCity
deriving DecidableEq, Repr

/-- Outbound HTTP calls the script can make during one run, used to
state which requests a run performs. -/
inductive OutboundCall where
  | ipCall
  | geocodeCall
  | reverseCall
  | weatherCall
deriving DecidableEq, Repr

/-- Inputs of one script run: the UI state and the outcome each external
call would have if performed. Fixing these makes the run a pure
function. -/
structure Env where
  loc_method : LocMethod
  units : String
  qp : QueryParams
  cityQuery : String
  findCityClicked : Bool
  ipCallOut : HttpOutcome IpData
  geocodeOut : HttpOutcome (List GeoMatch)
  reverseOut : HttpOutcome (List GeoMatch)
deriving DecidableEq, Repr

/-- How the location-determining part of the script ends: either
`st.experimental_rerun()` after setting fresh query params (city found),
or control reaches the main content with optional coordinates, a
`location_source` and a `location_name`. -/
inductive ROutcome where
  | rerun (qp : QueryParams)
  | proceed (coords : Option (ℚ × ℚ)) (src : Option String) (name : Option String)
deriving DecidableEq, Repr

/-- Result of the location-resolution phase: its outcome, the outbound
calls it performed (in order), and any sidebar error/warning message it
showed. -/
structure ResolveOut where
  out : ROutcome
  calls : List OutboundCall
  sidebarMsg : Option String
deriving DecidableEq, Repr

/-- Reverse geocoding (app.py:209-224), best-effort inside
`try/except: pass`: on an ok (<400) response whose body is a nonempty
list, if the first entry has a nonempty `name` the display name becomes
`name, country` (or just `name` when `country` is falsy); every other
path leaves `location_name` unchanged. -/
def reverseName (call : HttpOutcome (List GeoMatch)) (name : Option String) :
    Option String :=
  match call with
  | .exn => name
  | .response status body =>
    if status < 400 then
      match body with
      | none => name
      | some [] => name
      | some (loc :: _) =>
        let name_part := loc.name.getD ""
        let country := loc.country.getD ""
        if name_part ≠ "" then
          some (if country ≠ "" then name_part ++ ", " ++ country else name_part)
        else name
    else name

/-- app.py:201-224, shared tail of every non-rerun branch: if the branch
produced no coordinates, retry `coords_from_query` and tag the source
`"Query param"`; then, when coordinates exist, attempt reverse geocoding
for a display name (one extra outbound call). -/
def afterBranch (env : Env) (coords : Option (ℚ × ℚ)) (src name : Option String)
    (calls : List OutboundCall) (msg : Option String) : ResolveOut :=
  let withFallback :=
    match coords with
    | some c => (some c, src)
    | none =>
      match coords_from_query env.qp with
      | some c => (some c, some "Query param")
      | none => (none, src)
  match withFallback with
  | (none, src2) => ⟨.proceed none src2 name, calls, msg⟩
  | (some c, src2) =>
      ⟨.proceed (some c) src2 (reverseName env.reverseOut name),
       calls ++ [.reverseCall], msg⟩

/-- Python `str.strip()`: drop whitespace from both ends. -/
def pyStrip (s : String) : String :=
  ⟨((s.data.dropWhile Char.isWhitespace).reverse.dropWhile Char.isWhitespace).reverse⟩

/-- app.py:161-169: coordinates from the IP payload; the
`latitude`/`longitude` pair is preferred, the `lat`/`lon` aliases come
second, and each guard also requires dict truthiness (`if ip_data and
... in ip_data`). -/
def ipCoords (ip_data : Option IpData) : Option (ℚ × ℚ) :=
  match ip_data with
  | none => none
  | some d =>
    if d.truthy && d.latitude.isSome && d.longitude.isSome then
      some (d.latitude.getD 0, d.longitude.getD 0)
    else if d.truthy && d.lat.isSome && d.lon.isSome then
      some (d.lat.getD 0, d.lon.getD 0)
    else none

/-- app.py:170-172: display name from the IP payload, the Python
`or`-chain `city or region or country_name` (falsy = absent or ""). -/
def ipName (ip_data : Option IpData) : Option String :=
  match ip_data with
  | none => none
  | some d =>
    if d.truthy then
      match d.city with
      | some c => if c ≠ "" then some c else
        (match d.region with
         | some r => if r ≠ "" then some r else d.country_name
         | none => d.country_name)
      | none =>
        match d.region with
        | some r => if r ≠ "" then some r else d.country_name
        | none => d.country_name
    else none

/-- The location-determination phase of the script (app.py:144-224):
the user-selected `loc_method` branch, then the query-param fallback and
the best-effort reverse geocoding. -/
def resolveLocation (env : Env) : ResolveOut :=
  let lat_lon := coords_from_query env.qp
  match env.loc_method with
  | .browserGPS =>
    -- app.py:148-157: use query params if present, else only render the
    -- JS button; no coordinates are produced in-process.
    match lat_lon with
    | some c => afterBranch env (some c) (some "GPS (browser)") none [] none
    | none => afterBranch env none none none [] none
  | .ipBased =>
    -- app.py:159-173
    let ip_data := ip_geolocation env.ipCallOut
    afterBranch env (ipCoords ip_data) (some "IP-based") (ipName ip_data)
      [.ipCall] none
  | .searchCity =>
    -- app.py:175-199
    if env.findCityClicked then
      if pyStrip env.cityQuery ≠ "" then
        match geocode_city env.geocodeOut with
        | some ge =>
          -- set query params (lat, lon, source="city", city=name) and rerun
          .mk (.rerun ⟨some (some ge.lat), some (some ge.lon),
                       some "city", some (ge.name.getD "")⟩)
              [.geocodeCall] none
        | none =>
          afterBranch env none none none [.geocodeCall]
            (some "City not found via OpenWeather geocoding.")
      else
        afterBranch env none none none [] (some "Enter a city name first.")
    else
      match lat_lon with
      | some c => afterBranch env (some c) (some "From query") none [] none
      | none => afterBranch env none none none [] none

/-- Python `str.title()` restricted to the alphabetic notion Lean's
`Char.isAlpha` provides: the first letter of each run of letters is
uppercased, the rest lowercased. -/
def pyTitleAux : Bool → List Char → List Char
  | _, [] => []
  | prevAlpha, c :: cs =>
    (if c.isAlpha then (if prevAlpha then c.toLower else c.toUpper) else c) ::
      pyTitleAux c.isAlpha cs

/-- Python `str.title()`. -/
def pyTitle (s : String) : String := ⟨pyTitleAux false s.data⟩

/-- Python `str(x)` for an optional number: `str(None) = "None"`; the
decimal formatting of a present number is abstracted by `toString`. -/
def pyNumStr (x : Option ℚ) : String :=
  match x with
  | none => "None"
  | some q => toString q

/-- `current.get("weather", [\x7b\x7d])[0].get("description", "")`
(app.py:255): key absent → default list with one empty dict → `""`;
key present with a nonempty list → first description (default `""`);
key present with an EMPTY list → `[0]` raises `IndexError`, which
nothing catches: that run crashes (`none`). -/
def currentDesc (c : Current) : Option String :=
  match c.weather with
  | none => some ""
  | some [] => none
  | some (d :: _) => some (d.getD "")

/-- The per-field strings of the "Now" section (app.py:251-263). Each
field is interpolated into the layout strings exactly once, so the view
keeps them separately. -/
structure NowView where
  descStr : String
  tempStr : String
  feelsStr : String
  humidityStr : String
  windStr : String
  pressureStr : String
  tempUnitStr : String
  windUnitStr : String
deriving DecidableEq, Repr

/-- Render the "Now" section from `weather.get("current", \x7b\x7d)`
(app.py:251-263). `none` = the run crashes (only possible through
`currentDesc`). Every `.get` field missing from the payload is
interpolated as Python renders `None`. -/
def renderNow (units : String) (c : Current) : Option NowView :=
  match currentDesc c with
  | none => none
  | some d => some
    { descStr := pyTitle d
      tempStr := pyNumStr c.temp
      feelsStr := pyNumStr c.feels_like
      humidityStr := pyNumStr c.humidity
      windStr := pyNumStr c.wind_speed
      pressureStr := pyNumStr c.pressure
      tempUnitStr := if units = "metric" then "C" else "F"
      windUnitStr := if units = "metric" then "m/s" else "mph" }

/-- `weather.get("current", \x7b\x7d)`: the default is the empty dict,
i.e. a `Current` with every field absent. -/
def emptyCurrent : Current := ⟨none, none, none, none, none, none, none⟩

/-- `hourly = weather.get("hourly", [])[:12]` (app.py:266): the hourly
entries the renderer displays. -/
def hourlyShown (w : Weather) : List HourEntry := w.hourly.take 12

/-- `daily = weather.get("daily", [])[:8]` (app.py:282): the daily
entries the renderer displays. -/
def dailyShown (w : Weather) : List DayEntry := w.daily.take 8

/-- What the main content renders: the "Now" view and the truncated
hourly/daily series (chart/table geometry abstracted away; the lists
are exactly the data plotted/tabulated). `none` = crash. -/
structure PageView where
  now : NowView
  hourly : List HourEntry
  daily : List DayEntry
deriving DecidableEq, Repr

/-- app.py:250-308: render the page for a fetched payload. -/
def renderPage (units : String) (w : Weather) : Option PageView :=
  match renderNow units (w.current.getD emptyCurrent) with
  | none => none
  | some nv => some ⟨nv, hourlyShown w, dailyShown w⟩

/-- `st.secrets.get("OPENWEATHER_API_KEY")`: `none` = key absent. -/
structure Config where
  apiKey : Option String
deriving DecidableEq, Repr

/-- `if not OPENWEATHER_KEY` (app.py:25): Python falsiness of the
optional string — absent or empty. -/
def keyFalsy (k : Option String) : Bool :=
  match k with
  | none => true
  | some s => s = ""

/-- The error text of app.py:26. -/
def configErrorMsg : String :=
  "OpenWeather API key not found in st.secrets[OPENWEATHER_API_KEY]. Add it and reload."

/-- How one full script run ends (each `st.stop()` / rerun /
fall-through is one constructor). -/
inductive AppResult where
  | configError (msg : String)
  | rerunApp (qp : QueryParams)
  | noCoords
  | weatherFail
  | crash
  | page (coords : ℚ × ℚ) (src : Option String) (name : Option String) (v : PageView)
deriving DecidableEq, Repr

/-- One full run of the script (app.py top to bottom): the result plus
the outbound HTTP calls made, in order. `wOut` is the outcome the
weather GET would have if performed. -/
def appRun (cfg : Config) (env : Env) (wOut : HttpOutcome Weather) :
    AppResult × List OutboundCall :=
  if keyFalsy cfg.apiKey then
    -- app.py:25-27: st.error(...); st.stop() — before any other work.
    (.configError configErrorMsg, [])
  else
    let r := resolveLocation env
    match r.out with
    | .rerun qp => (.rerunApp qp, r.calls)
    | .proceed none _ _ =>
      -- app.py:229-231: st.info(...); st.stop()
      (.noCoords, r.calls)
    | .proceed (some c) src name =>
      match fetch_weather wOut with
      | none =>
        -- app.py:235-237: st.error(...); st.stop()
        (.weatherFail, r.calls ++ [.weatherCall])
      | some w =>
        match renderPage env.units w with
        | none => (.crash, r.calls ++ [.weatherCall])
        | some pv => (.page c src name pv, r.calls ++ [.weatherCall])

/-- Coordinates part of an outcome (`none` when the run reruns or left
`lat`/`lon` unset). -/
def ROutcome.coordsOf : ROutcome → Option (ℚ × ℚ)
  | .rerun _ => none
  | .proceed c _ _ => c

/-- Location-source tag of an outcome. -/
def ROutcome.srcOf : ROutcome → Option String
  | .rerun _ => none
  | .proceed _ s _ => s

/-! Concrete fixtures used by witnesses and counterexamples. -/

/-- Query params with no `lat`/`lon` keys. -/
def qpEmpty : QueryParams := ⟨none, none, none, none⟩

/-- Query params carrying parseable coordinates `(a, b)`. -/
def qpPair (a b : ℚ) : QueryParams := ⟨some (some a), some (some b), none, none⟩

/-- An IP-lookup payload that does carry usable coordinates. -/
def ipWithCoords : IpData :=
  ⟨some 3, some 4, none, none, some "Makassar", none, none, false⟩

/-- A minimal parsed weather payload. -/
def wEx : Weather := ⟨none, [], []⟩

/-- Run state: Browser GPS selected, no coordinates in the query params
(the user denied geolocation, so no redirect happened), while the IP
service would answer with usable coordinates if it were consulted. -/
def envGPSDenied : Env :=
  ⟨.browserGPS, "metric", qpEmpty, "", false,
   .response 200 (some ipWithCoords), .exn, .exn⟩

/-- C1, claim as stated is false. With Browser GPS selected and no
stored coordinates, the run ends with NO coordinate and performs NO
outbound call at all — even though the IP service (whose outcome is part
of the run state) carries usable coordinates. The resolver neither
proceeds to IP-based lookup after the GPS strategy fails nor falls back
to any default city (no "Polewali,ID" fallback exists in the program),
so resolution ends unresolved although not every strategy failed. -/
theorem c1_counterexample :
    resolveLocation envGPSDenied = ⟨.proceed none none none, [], none⟩ ∧
    appRun ⟨some "key"⟩ envGPSDenied (.response 200 (some wEx)) = (.noCoords, []) :=
  ⟨rfl, rfl⟩

/-- C1 (amended): the strategies are selected by the user, not tried in
sequence; when the Browser GPS method is selected and the query params
hold no coordinates, the resolver performs no outbound call, shows no
message, and produces no coordinate — there is no IP fallback and no
default-city fallback, so resolution ends without a Coordinate. -/
theorem c1_no_auto_fallback (env : Env)
    (hm : env.loc_method = .browserGPS)
    (hq : coords_from_query env.qp = none) :
    resolveLocation env = ⟨.proceed none none none, [], none⟩ := by
  simp [resolveLocation, afterBranch, hm, hq]

/-- C1 witness: the amended theorem at the concrete run state. -/
theorem c1_no_auto_fallback_witness :
    resolveLocation envGPSDenied = ⟨.proceed none none none, [], none⟩ :=
  c1_no_auto_fallback envGPSDenied rfl rfl

/-- C2, claim as stated is false. On an HTTP 401 response the client
returns the bare failure value `None` — the very value it returns for a
500 — so the result is not a structured error and includes no status
information at all. -/
theorem c2_counterexample :
    fetch_weather (.response 401 (some wEx)) = none ∧
    fetch_weather (.response 500 (some wEx)) = none ∧
    fetch_weather (.response 401 (some wEx)) =
      fetch_weather (.response 500 (some wEx)) :=
  ⟨rfl, rfl, rfl⟩

/-- C2 (amended): on every HTTP 401 response, whatever the body,
`fetch_weather` returns the failure value `None` (carrying no status
information) and never raises — the function is total. -/
theorem c2_fetch_weather_401 (body : Option Weather) :
    fetch_weather (.response 401 body) = none := by
  simp [fetch_weather]

/-- C3: when the API key is absent (or empty, the other Python-falsy
string), the run stops at the configuration check with the user-visible
error message, and the outbound-call trace of the whole run is empty —
in particular no weather request is made. -/
theorem c3_missing_key_halts (cfg : Config) (env : Env)
    (wOut : HttpOutcome Weather) (h : keyFalsy cfg.apiKey = true) :
    appRun cfg env wOut = (.configError configErrorMsg, []) := by
  simp [appRun, h]

/-- C3 witness: a run with no configured key. -/
theorem c3_missing_key_halts_witness :
    appRun ⟨none⟩ envGPSDenied (.response 200 (some wEx)) =
      (.configError configErrorMsg, []) :=
  c3_missing_key_halts ⟨none⟩ envGPSDenied (.response 200 (some wEx)) rfl

/-- The sidebar message is unaffected by the query-param fallback and
the reverse lookup. -/
theorem afterBranch_msg (env : Env) (coords : Option (ℚ × ℚ))
    (src name : Option String) (calls : List OutboundCall) (msg : Option String) :
    (afterBranch env coords src name calls msg).sidebarMsg = msg := by
  unfold afterBranch
  cases coords with
  | some c => rfl
  | none => cases coords_from_query env.qp <;> rfl

/-- A branch that produced no coordinates and whose query params hold
none either proceeds with nothing, keeping source and name. -/
theorem afterBranch_none_none (env : Env) (src name : Option String)
    (calls : List OutboundCall) (msg : Option String)
    (h : coords_from_query env.qp = none) :
    afterBranch env none src name calls msg = ⟨.proceed none src name, calls, msg⟩ := by
  simp [afterBranch, h]

/-- A branch that produced no coordinates falls back to the query
params when those parse, retagging the source "Query param". -/
theorem afterBranch_none_some (env : Env) (src name : Option String)
    (calls : List OutboundCall) (msg : Option String) (c : ℚ × ℚ)
    (h : coords_from_query env.qp = some c) :
    afterBranch env none src name calls msg =
      ⟨.proceed (some c) (some "Query param") (reverseName env.reverseOut name),
       calls ++ [.reverseCall], msg⟩ := by
  simp [afterBranch, h]

/-- C4: a zero-match geocoding response makes `geocode_city` return
`None` (it cannot raise: it is a total function), the script reports the
strategy failed via the sidebar error, and the run continues to the next
strategy — the query-param fallback — which is used when it parses and
otherwise leaves the run without coordinates. -/
theorem c4_geocode_no_match (env : Env) (s : Nat)
    (hm : env.loc_method = .searchCity)
    (hc : env.findCityClicked = true)
    (hq : pyStrip env.cityQuery ≠ "")
    (hg : env.geocodeOut = .response s (some [])) :
    geocode_city env.geocodeOut = none ∧
    (resolveLocation env).sidebarMsg =
      some "City not found via OpenWeather geocoding." ∧
    (coords_from_query env.qp = none →
      (resolveLocation env).out = .proceed none none none) ∧
    (∀ c, coords_from_query env.qp = some c →
      (resolveLocation env).out =
        .proceed (some c) (some "Query param") (reverseName env.reverseOut none)) := by
  have hgc : geocode_city env.geocodeOut = none := by
    rw [hg]; simp [geocode_city]
  have hres : resolveLocation env =
      afterBranch env none none none [.geocodeCall]
        (some "City not found via OpenWeather geocoding.") := by
    simp [resolveLocation, hm, hc, hq, hgc]
  refine ⟨hgc, ?_, ?_, ?_⟩
  · rw [hres, afterBranch_msg]
  · intro h
    rw [hres, afterBranch_none_none env none none _ _ h]
  · intro c h
    rw [hres, afterBranch_none_some env none none _ _ c h]

/-- Run state for the C4 witness: Search city selected, Find city
clicked with a nonblank query, the geocoder answers 200 with zero
matches, and the query params hold a stored coordinate. -/
def envNoMatch : Env :=
  ⟨.searchCity, "metric", qpPair 3 4, "Atlantis", true,
   .exn, .response 200 (some []), .exn⟩

/-- C4 witness: the theorem at the concrete run state; the fallback
coordinate is used and tagged "Query param". -/
theorem c4_geocode_no_match_witness :
    geocode_city envNoMatch.geocodeOut = none ∧
    (resolveLocation envNoMatch).sidebarMsg =
      some "City not found via OpenWeather geocoding." ∧
    (resolveLocation envNoMatch).out =
      .proceed (some (3, 4)) (some "Query param")
        (reverseName envNoMatch.reverseOut none) := by
  have h := c4_geocode_no_match envNoMatch 200 rfl rfl (by decide) rfl
  exact ⟨h.1, h.2.1, h.2.2.2 (3, 4) rfl⟩

/-- A payload whose `current` has a temperature but no `feels_like`. -/
def cNoFeels : Current :=
  ⟨none, some 25, none, some 60, some 3, some 1010, some [some "light rain"]⟩

/-- C5, claim as stated is false. With `feels_like` missing, the
feels-like slot renders as the string "None" (Python interpolates the
`None` value), which is not the "not available" marker the claim
promises; the temperature slot still renders its value. -/
theorem c5_counterexample :
    (renderNow "metric" cNoFeels).map NowView.feelsStr = some "None" ∧
    (renderNow "metric" cNoFeels).map NowView.tempStr = some "25" ∧
    "None" ≠ "not available" :=
  ⟨rfl, rfl, by decide⟩

/-- C5 (amended): when `feels_like` is missing (and the payload does not
hit the unrelated empty-`weather`-list crash), rendering succeeds, the
temperature renders exactly as it always does, and the feels-like slot
shows the literal placeholder "None" rather than crashing. -/
theorem c5_missing_feels_like (units : String) (c : Current)
    (hf : c.feels_like = none) (hw : c.weather ≠ some []) :
    (renderNow units c).isSome = true ∧
    (renderNow units c).map NowView.feelsStr = some "None" ∧
    (renderNow units c).map NowView.tempStr = some (pyNumStr c.temp) := by
  match hcw : c.weather with
  | none => simp [renderNow, currentDesc, hcw, hf, pyNumStr]
  | some [] => exact absurd hcw hw
  | some (d :: ds) => simp [renderNow, currentDesc, hcw, hf, pyNumStr]

/-- C5 witness: the amended theorem at the concrete payload. -/
theorem c5_missing_feels_like_witness :
    (renderNow "metric" cNoFeels).isSome = true ∧
    (renderNow "metric" cNoFeels).map NowView.feelsStr = some "None" ∧
    (renderNow "metric" cNoFeels).map NowView.tempStr = some (pyNumStr cNoFeels.temp) :=
  c5_missing_feels_like "metric" cNoFeels rfl (by decide)

/-- Run state where the only way coordinates arrive is the user typing
them into the URL query params (the closest thing the program has to
manual numeric entry): IP method selected but its call fails. -/
def envQPManual : Env :=
  ⟨.ipBased, "metric", qpPair 3 4, "", false, .exn, .exn, .exn⟩

/-- C6, claim as stated is false. Manually entered coordinates (3, 4)
are echoed exactly, but the source tag is "Query param" — no `manual`
source tag exists anywhere in the program. -/
theorem c6_counterexample :
    (resolveLocation envQPManual).out =
      .proceed (some (3, 4)) (some "Query param") none ∧
    (resolveLocation envQPManual).out.srcOf ≠ some "manual" :=
  ⟨rfl, by decide⟩

/-- C6 (amended): for every valid pair (a, b) entered via the query
params, the resolver echoes exactly the entered values; the source tag
is "Query param", not `manual`. -/
theorem c6_query_entry_echoes (env : Env) (a b : ℚ)
    (hm : env.loc_method = .ipBased)
    (hip : env.ipCallOut = .exn)
    (hla : env.qp.lat = some (some a))
    (hlo : env.qp.lon = some (some b)) :
    (resolveLocation env).out =
      .proceed (some (a, b)) (some "Query param")
        (reverseName env.reverseOut none) := by
  have hq : coords_from_query env.qp = some (a, b) := by
    simp [coords_from_query, hla, hlo]
  have : resolveLocation env =
      afterBranch env none (some "IP-based") none [.ipCall] none := by
    simp [resolveLocation, hm, hip, ip_geolocation, ipCoords, ipName]
  rw [this, afterBranch_none_some env _ none _ _ (a, b) hq]

/-- C6 witness: the amended theorem at the concrete run state. -/
theorem c6_query_entry_echoes_witness :
    (resolveLocation envQPManual).out =
      .proceed (some (3, 4)) (some "Query param")
        (reverseName envQPManual.reverseOut none) :=
  c6_query_entry_echoes envQPManual 3 4 rfl rfl rfl rfl

/-- Valid latitude range of the Coordinate data model. -/
def latInRange (x : ℚ) : Prop := -90 ≤ x ∧ x ≤ 90

/-- Valid longitude range of the Coordinate data model. -/
def lonInRange (y : ℚ) : Prop := -180 ≤ y ∧ y ≤ 180

/-- The Coordinate data-model invariant. -/
def coordInRange (c : ℚ × ℚ) : Prop := latInRange c.1 ∧ lonInRange c.2

instance (x : ℚ) : Decidable (latInRange x) := by unfold latInRange; infer_instance

instance (y : ℚ) : Decidable (lonInRange y) := by unfold lonInRange; infer_instance

instance (c : ℚ × ℚ) : Decidable (coordInRange c) := by
  unfold coordInRange; infer_instance

/-- Whatever `afterBranch` proceeds with came either from the branch or
from the query params. -/
theorem afterBranch_coords (env : Env) (coords : Option (ℚ × ℚ))
    (src name : Option String) (calls : List OutboundCall) (msg : Option String)
    (c : ℚ × ℚ) (s n : Option String)
    (h : (afterBranch env coords src name calls msg).out = .proceed (some c) s n) :
    coords = some c ∨ coords_from_query env.qp = some c := by
  cases hc : coords with
  | some c0 =>
    rw [hc] at h
    have h1 : ROutcome.proceed (some c0) src (reverseName env.reverseOut name) =
        .proceed (some c) s n := h
    injection h1 with h2 h3 h4
    exact Or.inl h2
  | none =>
    rw [hc] at h
    cases hq : coords_from_query env.qp with
    | some c0 =>
      rw [afterBranch_none_some env src name calls msg c0 hq] at h
      have h1 : ROutcome.proceed (some c0) (some "Query param")
          (reverseName env.reverseOut name) = .proceed (some c) s n := h
      injection h1 with h2 h3 h4
      exact Or.inr h2
    | none =>
      rw [afterBranch_none_none env src name calls msg hq] at h
      have h1 : ROutcome.proceed none src name = .proceed (some c) s n := h
      injection h1 with h2 h3 h4
      exact absurd h2 (by simp)

/-- Coordinates produced by the IP branch are copied verbatim from one
of the two key pairs of the IP payload. -/
theorem ipCoords_provenance (ip : Option IpData) (c : ℚ × ℚ)
    (h : ipCoords ip = some c) :
    ∃ d, ip = some d ∧
      ((d.latitude = some c.1 ∧ d.longitude = some c.2) ∨
       (d.lat = some c.1 ∧ d.lon = some c.2)) := by
  cases ip with
  | none => simp [ipCoords] at h
  | some d =>
    refine ⟨d, rfl, ?_⟩
    simp only [ipCoords] at h
    split at h
    · left
      rename_i hcond
      simp only [Bool.and_eq_true, Option.isSome_iff_exists] at hcond
      obtain ⟨⟨-, x, hx⟩, y, hy⟩ := hcond
      simp only [hx, hy, Option.getD_some, Option.some.injEq] at h
      rw [hx, hy, ← h]
      exact ⟨rfl, rfl⟩
    · split at h
      · right
        rename_i hcond
        simp only [Bool.and_eq_true, Option.isSome_iff_exists] at hcond
        obtain ⟨⟨-, x, hx⟩, y, hy⟩ := hcond
        simp only [hx, hy, Option.getD_some, Option.some.injEq] at h
        rw [hx, hy, ← h]
        exact ⟨rfl, rfl⟩
      · exact absurd h (by simp)

/-- Every coordinate the resolver proceeds with is copied verbatim from
one of its inputs: the query params or the IP payload (a city match
never reaches `proceed` directly — it reruns through the query params). -/
theorem resolveLocation_coords (env : Env) (c : ℚ × ℚ) (s n : Option String)
    (h : (resolveLocation env).out = .proceed (some c) s n) :
    coords_from_query env.qp = some c ∨
    (∃ d, ip_geolocation env.ipCallOut = some d ∧
      ((d.latitude = some c.1 ∧ d.longitude = some c.2) ∨
       (d.lat = some c.1 ∧ d.lon = some c.2))) := by
  cases hm : env.loc_method with
  | browserGPS =>
    cases hq : coords_from_query env.qp with
    | some c0 =>
      simp only [resolveLocation, hm, hq] at h
      rcases afterBranch_coords env _ _ _ _ _ c s n h with h1 | h1
      · left; exact h1
      · left; exact hq.symm.trans h1
    | none =>
      simp only [resolveLocation, hm, hq] at h
      rcases afterBranch_coords env _ _ _ _ _ c s n h with h1 | h1
      · exact absurd h1 (by simp)
      · exact absurd (hq.symm.trans h1) (by simp)
  | ipBased =>
    simp only [resolveLocation, hm] at h
    rcases afterBranch_coords env _ _ _ _ _ c s n h with h1 | h1
    · right; exact ipCoords_provenance _ c h1
    · left; exact h1
  | searchCity =>
    cases hc : env.findCityClicked with
    | true =>
      by_cases hs : pyStrip env.cityQuery = ""
      · simp only [resolveLocation, hm, hc, if_true, hs, ne_eq,
          not_true_eq_false, if_false] at h
        rcases afterBranch_coords env _ _ _ _ _ c s n h with h1 | h1
        · exact absurd h1 (by simp)
        · left; exact h1
      · cases hg : geocode_city env.geocodeOut with
        | some ge =>
          simp only [resolveLocation, hm, hc, if_true, ne_eq, hs,
            not_false_eq_true, hg] at h
          simp at h
        | none =>
          simp only [resolveLocation, hm, hc, if_true, ne_eq, hs,
            not_false_eq_true, hg] at h
          rcases afterBranch_coords env _ _ _ _ _ c s n h with h1 | h1
          · exact absurd h1 (by simp)
          · left; exact h1
    | false =>
      cases hq : coords_from_query env.qp with
      | some c0 =>
        simp only [resolveLocation, hm, hc, Bool.false_eq_true, if_false, hq] at h
        rcases afterBranch_coords env _ _ _ _ _ c s n h with h1 | h1
        · left; exact h1
        · left; exact hq.symm.trans h1
      | none =>
        simp only [resolveLocation, hm, hc, Bool.false_eq_true, if_false, hq] at h
        rcases afterBranch_coords env _ _ _ _ _ c s n h with h1 | h1
        · exact absurd h1 (by simp)
        · exact absurd (hq.symm.trans h1) (by simp)

/-- All coordinate-bearing inputs of a run state respect the Coordinate
ranges. -/
def EnvInputsInRange (env : Env) : Prop :=
  (∀ c, coords_from_query env.qp = some c → coordInRange c) ∧
  (∀ d, ip_geolocation env.ipCallOut = some d →
    (∀ x, d.latitude = some x → latInRange x) ∧
    (∀ x, d.longitude = some x → lonInRange x) ∧
    (∀ x, d.lat = some x → latInRange x) ∧
    (∀ x, d.lon = some x → lonInRange x))

/-- Run state whose query params carry the out-of-range latitude 999. -/
def envBadRange : Env :=
  ⟨.ipBased, "metric", qpPair 999 0, "", false, .exn, .exn, .exn⟩

/-- C7, claim as stated is false. The resolver validates nothing: query
params with latitude 999 produce the coordinate (999, 0), which violates
the data-model range for latitude. -/
theorem c7_counterexample :
    (resolveLocation envBadRange).out =
      .proceed (some (999, 0)) (some "Query param") none ∧
    ¬ coordInRange (999, 0) :=
  ⟨rfl, by decide⟩

/-- C7 (amended): the resolver copies coordinates verbatim from its
inputs and never validates them, so every Coordinate it produces lies in
range exactly when the inputs do: under in-range inputs the data-model
invariant holds. -/
theorem c7_in_range_iff_inputs (env : Env) (hr : EnvInputsInRange env)
    (c : ℚ × ℚ) (s n : Option String)
    (h : (resolveLocation env).out = .proceed (some c) s n) :
    coordInRange c := by
  rcases resolveLocation_coords env c s n h with hq | ⟨d, hd, hcase⟩
  · exact hr.1 c hq
  · rcases hcase with ⟨h1, h2⟩ | ⟨h1, h2⟩
    · exact ⟨(hr.2 d hd).1 c.1 h1, (hr.2 d hd).2.1 c.2 h2⟩
    · exact ⟨(hr.2 d hd).2.2.1 c.1 h1, (hr.2 d hd).2.2.2 c.2 h2⟩

/-- C7 witness: the amended theorem at a concrete in-range run state. -/
theorem c7_in_range_iff_inputs_witness : coordInRange (3, 4) := by
  refine c7_in_range_iff_inputs envQPManual ⟨?_, ?_⟩ (3, 4)
    (some "Query param") none rfl
  · intro c hc
    have : c = (3, 4) := by
      have : (some (3, 4) : Option (ℚ × ℚ)) = some c := hc
      exact (Option.some.injEq _ _ |>.mp this).symm
    rw [this]; decide
  · intro d hd
    exact absurd hd (by simp [ip_geolocation, envQPManual])

/-- C8, claim as stated is false on one listed case: a non-2xx status is
not always absorbed into a failure result. `raise_for_status()` raises
only for status ≥ 400, so a status-300 response (which `requests` does
not auto-follow) with a parseable body is returned as a success
payload. -/
theorem c8_counterexample :
    fetch_weather (.response 300 (some wEx)) = some wEx ∧
    fetch_weather (.response 300 (some wEx)) ≠ none :=
  ⟨rfl, by decide⟩

/-- C8 (amended): `fetch_weather` is total and never re-raises; every
exceptional case — a raised exception, a 4xx/5xx status (≥ 400), or a
malformed body — yields the failure value, and a sub-400 status with a
parseable body yields the payload. -/
theorem c8_fetch_weather_total (s : Nat) (b : Option Weather) (w : Weather) :
    fetch_weather .exn = none ∧
    (400 ≤ s → fetch_weather (.response s b) = none) ∧
    fetch_weather (.response s none) = none ∧
    (s < 400 → fetch_weather (.response s (some w)) = some w) := by
  refine ⟨rfl, ?_, ?_, ?_⟩
  · intro hs
    simp [fetch_weather, hs]
  · simp only [fetch_weather]
    split <;> rfl
  · intro hs
    have hns : ¬ 400 ≤ s := by omega
    simp [fetch_weather, hns]

/-- C8 witness: the amended theorem at a 401 and at a 200 response. -/
theorem c8_fetch_weather_total_witness :
    fetch_weather (.response 401 (some wEx)) = none ∧
    fetch_weather (.response 200 (some wEx)) = some wEx :=
  ⟨(c8_fetch_weather_total 401 (some wEx) wEx).2.1 (by decide),
   (c8_fetch_weather_total 200 (some wEx) wEx).2.2.2 (by decide)⟩

/-- C9: with a stored session coordinate in the query params (and the
Browser GPS method selected, so no strategy call is made), every run of
the resolver returns the identical Coordinate — the stored pair with
source tag "GPS (browser)" — even across runs whose incidental
reverse-geocoding outcome differs. -/
theorem c9_resolver_idempotent (env : Env) (a b : ℚ)
    (r₁ r₂ : HttpOutcome (List GeoMatch))
    (hm : env.loc_method = .browserGPS)
    (hq : coords_from_query env.qp = some (a, b)) :
    (resolveLocation { env with reverseOut := r₁ }).out.coordsOf = some (a, b) ∧
    (resolveLocation { env with reverseOut := r₁ }).out.srcOf =
      some "GPS (browser)" ∧
    (resolveLocation { env with reverseOut := r₂ }).out.coordsOf =
      (resolveLocation { env with reverseOut := r₁ }).out.coordsOf ∧
    (resolveLocation { env with reverseOut := r₂ }).out.srcOf =
      (resolveLocation { env with reverseOut := r₁ }).out.srcOf := by
  have key : ∀ r : HttpOutcome (List GeoMatch),
      resolveLocation { env with reverseOut := r } =
        ⟨.proceed (some (a, b)) (some "GPS (browser)") (reverseName r none),
         [.reverseCall], none⟩ := by
    intro r
    simp [resolveLocation, hm, hq, afterBranch]
  rw [key r₁, key r₂]
  exact ⟨rfl, rfl, rfl, rfl⟩

/-- Run state with a stored session coordinate and Browser GPS
selected. -/
def envStored : Env :=
  ⟨.browserGPS, "metric", qpPair 3 4, "", false, .exn, .exn, .exn⟩

/-- C9 witness: the theorem at the concrete stored state, with two
different reverse-geocoding outcomes. -/
theorem c9_resolver_idempotent_witness :
    (resolveLocation { envStored with reverseOut := .exn }).out.coordsOf =
      some (3, 4) ∧
    (resolveLocation { envStored with reverseOut := .exn }).out.srcOf =
      some "GPS (browser)" ∧
    (resolveLocation
        { envStored with reverseOut := .response 200 (some []) }).out.coordsOf =
      (resolveLocation { envStored with reverseOut := .exn }).out.coordsOf ∧
    (resolveLocation
        { envStored with reverseOut := .response 200 (some []) }).out.srcOf =
      (resolveLocation { envStored with reverseOut := .exn }).out.srcOf :=
  c9_resolver_idempotent envStored 3 4 .exn (.response 200 (some [])) rfl rfl

/-- C10: whatever the provider returns, the page shows exactly the
first min(12, length) hourly entries and the first min(8, length) daily
entries: at most 12 and at most 8, each equal to the corresponding
entry of the full series. -/
theorem c10_series_truncated (u : String) (w : Weather) (pv : PageView)
    (i j : Nat) (h : renderPage u w = some pv) :
    pv.hourly.length ≤ 12 ∧ pv.daily.length ≤ 8 ∧
    (i < 12 → pv.hourly[i]? = w.hourly[i]?) ∧
    (j < 8 → pv.daily[j]? = w.daily[j]?) := by
  have hpv : pv.hourly = w.hourly.take 12 ∧ pv.daily = w.daily.take 8 := by
    unfold renderPage at h
    cases hrn : renderNow u (w.current.getD emptyCurrent) with
    | none => rw [hrn] at h; cases h
    | some nv =>
      rw [hrn] at h
      injection h with h1
      rw [← h1]
      exact ⟨rfl, rfl⟩
  refine ⟨?_, ?_, ?_, ?_⟩
  · rw [hpv.1, List.length_take]; omega
  · rw [hpv.2, List.length_take]; omega
  · intro hi
    rw [hpv.1]
    exact List.getElem?_take_of_lt hi
  · intro hj
    rw [hpv.2]
    exact List.getElem?_take_of_lt hj

/-- A payload with 13 hourly and 9 daily entries. -/
def wBig : Weather :=
  ⟨none, List.replicate 13 ⟨0, 0⟩, List.replicate 9 ⟨0, 0, 0, none, none⟩⟩

/-- The page rendered for `wBig`. -/
def pvBig : PageView :=
  ⟨⟨"", "None", "None", "None", "None", "None", "C", "m/s"⟩,
   List.replicate 12 ⟨0, 0⟩, List.replicate 8 ⟨0, 0, 0, none, none⟩⟩

/-- C10 witness: the theorem at a payload with 13 hourly and 9 daily
entries; 12 and 8 survive. -/
theorem c10_series_truncated_witness :
    pvBig.hourly.length ≤ 12 ∧ pvBig.daily.length ≤ 8 ∧
    pvBig.hourly[0]? = wBig.hourly[0]? ∧ pvBig.daily[0]? = wBig.daily[0]? := by
  have h := c10_series_truncated "metric" wBig pvBig 0 0 rfl
  exact ⟨h.1, h.2.1, h.2.2.1 (by decide), h.2.2.2 (by decide)⟩

end ForecastApp
